import Mathlib

/-!
# Verification of the Azeroth map application's viewport and search logic

Shallow embedding of `src/js/app.js` (class `MapApp`): pan, wheel/button zoom,
translation clamping, reset, jump-to-marker centering, search filtering and the
overlay swipe computation. JavaScript numbers are modelled as exact rationals
(`ℚ`); strings are modelled as lists of characters so that lowercasing,
trimming and substring containment (`String.prototype.includes`) are
executable. DOM-visible state (active marker highlight, tooltip visibility,
the active filter button, the rendered marker set, the search result list) is
carried explicitly in the state record.
-/

namespace AzerothMap

/-- A point-of-interest record, as loaded from `data/markers_data.json` and
consumed by `renderMarkers` / `handleSearchInput` / `jumpToMarker`.
Field names follow the source (`nom`, `categorie`, `top`, `left`,
`position_approx`, `lore_desc`, `image_url`). -/
structure MarkerRecord where
  nom : List Char
  categorie : List Char
  top : ℚ
  left : ℚ
  position_approx : List Char
  lore_desc : List Char
  image_url : List Char
deriving DecidableEq

/-- The `'all'` filter category string. -/
def allCat : List Char := ['a', 'l', 'l']

/-- Application state: the fields of class `MapApp` that the claims are about,
together with the DOM state the class mutates (tooltip visibility, the
`active-filter` button's `dataset.filter`, and the markers currently rendered
into `markers-container`). -/
structure MapApp where
  scale : ℚ
  translateX : ℚ
  translateY : ℚ
  markersData : List MarkerRecord
  activeMarker : Option MarkerRecord
  tooltipHidden : Bool
  activeFilter : List Char
  renderedMarkers : List MarkerRecord
deriving DecidableEq

theorem MapApp.ext {a b : MapApp}
    (h1 : a.scale = b.scale) (h2 : a.translateX = b.translateX)
    (h3 : a.translateY = b.translateY) (h4 : a.markersData = b.markersData)
    (h5 : a.activeMarker = b.activeMarker) (h6 : a.tooltipHidden = b.tooltipHidden)
    (h7 : a.activeFilter = b.activeFilter)
    (h8 : a.renderedMarkers = b.renderedMarkers) : a = b := by
  cases a; cases b; simp_all

/-- Constructor state: `scale = 1.0`, `translateX = translateY = 0`, no data,
no active marker, tooltip hidden; `createFilterButtons` activates the
`'Tout'` button whose `dataset.filter` is `'all'`. -/
def initialState : MapApp :=
  { scale := 1, translateX := 0, translateY := 0, markersData := [],
    activeMarker := none, tooltipHidden := true, activeFilter := allCat,
    renderedMarkers := [] }

/-- Visibility test of `renderMarkers`:
`filterCategory === 'all' || markerData.categorie === filterCategory`. -/
def isVisible (filterCategory : List Char) (m : MarkerRecord) : Bool :=
  filterCategory == allCat || m.categorie == filterCategory

/-- Function `renderMarkers(filterCategory)`: re-populates `markers-container` with the
data markers visible under the filter, in data order. -/
def renderMarkers (filterCategory : List Char) (st : MapApp) : MapApp :=
  { st with renderedMarkers := st.markersData.filter (isVisible filterCategory) }

/-- Method `hideTooltip()`. -/
def hideTooltip (st : MapApp) : MapApp :=
  { st with tooltipHidden := true }

/-- Method `handlePanMove` (lines 109–125): adds the pointer delta to the
translation, re-renders, and hides the tooltip.  Note: it does NOT call
`clampTranslations`. -/
def handlePanMove (dx dy : ℚ) (st : MapApp) : MapApp :=
  { st with translateX := st.translateX + dx, translateY := st.translateY + dy,
            tooltipHidden := true }

/-- Method `clampTranslations()` (lines 200–218), with the wrapper's
`clientWidth`/`clientHeight` passed explicitly.  If `scale > 1`, bounds each
translation into `[-(wrapper*scale - wrapper), 0]`; otherwise forces the
translation to `(0, 0)`. -/
def clampTranslations (w h : ℚ) (st : MapApp) : MapApp :=
  let mapWidth := w * st.scale
  let mapHeight := h * st.scale
  let viewWidth := w
  let viewHeight := h
  let maxX := mapWidth - viewWidth
  let maxY := mapHeight - viewHeight
  if st.scale > 1 then
    { st with translateX := max (min st.translateX 0) (-maxX),
              translateY := max (min st.translateY 0) (-maxY) }
  else
    { st with translateX := 0, translateY := 0 }

/-- The translation update of `handleZoom` lines 150–153 (shared textually
with `zoom` lines 175–178), before the subsequent `clampTranslations` call:
`translate -= cursor * (newScale - scale) / newScale; scale = newScale`. -/
def zoomTranslationUpdate (newScale cursorX cursorY : ℚ) (st : MapApp) : MapApp :=
  { st with
    translateX := st.translateX - cursorX * (newScale - st.scale) / newScale,
    translateY := st.translateY - cursorY * (newScale - st.scale) / newScale,
    scale := newScale }

/-- The zoom body shared textually by `handleZoom` (lines 141–156) and
`zoom` (lines 166–179): clamp `scale * factor` into `[1.0, 4.0]`,
early-return when the clamped scale is unchanged, otherwise apply the pivot
translation update followed by `clampTranslations`. -/
def applyZoom (w h factor cursorX cursorY : ℚ) (st : MapApp) : MapApp :=
  let newScale := max 1 (min 4 (st.scale * factor))
  if newScale = st.scale then st
  else
    clampTranslations w h (zoomTranslationUpdate newScale cursorX cursorY st)

/-- Method `handleZoom(e)` (lines 135–159): wheel zoom about the cursor.
`deltaYNeg` is `e.deltaY < 0` (factor `1.1`, else `0.9`); `cursorX`/`cursorY`
are the cursor position relative to the map container's bounding box. -/
def handleZoom (w h : ℚ) (deltaYNeg : Bool) (cursorX cursorY : ℚ)
    (st : MapApp) : MapApp :=
  let zoomFactor : ℚ := if deltaYNeg then 11/10 else 9/10
  applyZoom w h zoomFactor cursorX cursorY st

/-- Method `zoom(direction)` (lines 164–181): button zoom with factor `1.25`/`0.8`,
pivoting at the wrapper's center `(w/2, h/2)`. -/
def zoom (w h : ℚ) (zoomIn : Bool) (st : MapApp) : MapApp :=
  let factor : ℚ := if zoomIn then 5/4 else 4/5
  applyZoom w h factor (w / 2) (h / 2) st

/-- Method `getActiveFilter()` (lines 334–337): the `dataset.filter` of the button
currently carrying the `active-filter` class. -/
def getActiveFilter (st : MapApp) : List Char :=
  st.activeFilter

/-- Method `resetView()` (lines 186–194): scale to `1`, translation to `(0,0)`,
active marker cleared, tooltip hidden, markers re-rendered under the
currently active filter. -/
def resetView (st : MapApp) : MapApp :=
  let st1 := { st with scale := 1, translateX := 0, translateY := 0,
                       activeMarker := none }
  let st2 := hideTooltip st1
  renderMarkers (getActiveFilter st2) st2

/-- Method `jumpToMarker(markerData)` (lines 250–285): marks the record active,
narrows the rendered set to its category, shows its tooltip, then sets
`scale = 2.0` and `translate = viewCenter - markerPixelPos * 2.0`, where the
marker's percent coordinates are converted to pixels at scale 1 using the
wrapper's width `w` and height `h`.  No `clampTranslations` call is made. -/
def jumpToMarker (w h : ℚ) (markerData : MarkerRecord) (st : MapApp) : MapApp :=
  let st1 := { st with activeMarker := some markerData }
  let st2 := renderMarkers markerData.categorie st1
  let st3 := { st2 with tooltipHidden := false }
  let targetScale : ℚ := 2
  let viewCenterX := w / 2
  let viewCenterY := h / 2
  let markerXnorm := markerData.left / 100 * w
  let markerYnorm := markerData.top / 100 * h
  { st3 with scale := targetScale,
             translateX := viewCenterX - markerXnorm * targetScale,
             translateY := viewCenterY - markerYnorm * targetScale }

/-- Method `handleFilterClick` (lines 320–329): activates the clicked button's
category, clears the active marker, hides the tooltip and re-renders. -/
def handleFilterClick (category : List Char) (st : MapApp) : MapApp :=
  let st1 := { st with activeFilter := category, activeMarker := none }
  renderMarkers category (hideTooltip st1)

/-- Screen x-position (in wrapper coordinates) at which content x-coordinate
`c` is rendered by `renderMap`'s `translate(tx,ty) scale(s)` transform. -/
def screenPosX (st : MapApp) (c : ℚ) : ℚ :=
  st.translateX + st.scale * c

/-- Screen y-position of content y-coordinate `c` under the current
transform. -/
def screenPosY (st : MapApp) (c : ℚ) : ℚ :=
  st.translateY + st.scale * c

/-- JavaScript `trim()` on a character list: strip whitespace from both
ends. -/
def trim (s : List Char) : List Char :=
  ((s.dropWhile Char.isWhitespace).reverse.dropWhile Char.isWhitespace).reverse

/-- JavaScript `toLowerCase()` on a character list. -/
def toLower (s : List Char) : List Char :=
  s.map Char.toLower

/-- JavaScript `hay.includes(needle)`: `needle` occurs contiguously inside
`hay`. -/
def includes (hay needle : List Char) : Bool :=
  decide (List.IsInfix needle hay)

/-- Method `handleSearchInput()` (lines 226–244), as a function from the loaded
marker data and the raw value of the search input to the sequence of result
records appended to `search-results`:
lowercase and trim the raw value, return nothing when the result is shorter
than 2 characters, otherwise keep the records whose lowercased `nom` or
lowercased `position_approx` contains the query (`includes`), in data
order. -/
def handleSearchInput (markersData : List MarkerRecord) (raw : List Char) :
    List MarkerRecord :=
  let query := trim (toLower raw)
  if query.length < 2 then []
  else
    markersData.filter fun marker =>
      includes (toLower marker.nom) query ||
      includes (toLower marker.position_approx) query

/-- Case-insensitive substring match, worded as in the specification: the
query is a substring of the field once both are lowercased. -/
def ciMatch (query : List Char) (m : MarkerRecord) : Bool :=
  includes (toLower m.nom) (toLower query) ||
  includes (toLower m.position_approx) (toLower query)

/-- Closure `onSwipe` (lines 418–434), as a function from the pointer's `clientX` and
the wrapper's bounding-box left edge and width to the separator percent:
`newX = clamp(clientX - left, 0, width); percent = newX / width * 100`. -/
def onSwipe (clientX mapRectLeft mapRectWidth : ℚ) : ℚ :=
  let newX := clientX - mapRectLeft
  let newX := max 0 (min mapRectWidth newX)
  (newX / mapRectWidth) * 100

/-- The user-driven operations the invariant claims quantify over. -/
inductive MapOp where
  | panMove (dx dy : ℚ)
  | wheelZoom (deltaYNeg : Bool) (cursorX cursorY : ℚ)
  | buttonZoom (zoomIn : Bool)
  | jump (markerData : MarkerRecord)
  | reset
deriving DecidableEq

/-- Dispatch one operation to its handler (wrapper dimensions `w × h`). -/
def stepOp (w h : ℚ) : MapOp → MapApp → MapApp
  | .panMove dx dy => handlePanMove dx dy
  | .wheelZoom deltaYNeg cursorX cursorY => handleZoom w h deltaYNeg cursorX cursorY
  | .buttonZoom zoomIn => zoom w h zoomIn
  | .jump markerData => jumpToMarker w h markerData
  | .reset => resetView

/-- Run a sequence of operations left to right. -/
def runOps (w h : ℚ) (ops : List MapOp) (st : MapApp) : MapApp :=
  ops.foldl (fun s op => stepOp w h op s) st

/-- An operation is a zoom (wheel or button). -/
def isZoomOp : MapOp → Bool
  | .wheelZoom _ _ _ => true
  | .buttonZoom _ => true
  | _ => false

/-- An operation is one of the scale-setting operations of claim C3
(wheel zoom, button zoom, jump-to-marker, reset) — i.e. not a pan. -/
def isScaleOp : MapOp → Bool
  | .panMove _ _ => false
  | _ => true

/-! ## Helper lemmas -/

theorem clampTranslations_scale (w h : ℚ) (st : MapApp) :
    (clampTranslations w h st).scale = st.scale := by
  unfold clampTranslations
  split <;> rfl

theorem clampTranslations_of_scale_le_one (w h : ℚ) (st : MapApp)
    (hs : ¬ st.scale > 1) :
    (clampTranslations w h st) =
      { st with translateX := 0, translateY := 0 } := by
  unfold clampTranslations
  simp [hs]

/-- One-dimensional clamping `x ↦ max (min x 0) a` is idempotent, for any
lower bound `a` (including a positive one, where the two bounds cross). -/
theorem clamp1_idem (x a : ℚ) :
    max (min (max (min x 0) a) 0) a = max (min x 0) a := by
  rcases le_total a 0 with ha | ha
  · have h1 : a ≤ max (min x 0) a := le_max_right _ _
    have h2 : max (min x 0) a ≤ 0 := max_le (min_le_right _ _) ha
    rw [min_eq_left h2, max_eq_left h1]
  · have h1 : max (min x 0) a = a := max_eq_right ((min_le_right x 0).trans ha)
    rw [h1, min_eq_right ha, max_eq_right ha]

theorem zoomTranslationUpdate_scale (ns cx cy : ℚ) (st : MapApp) :
    (zoomTranslationUpdate ns cx cy st).scale = ns := rfl

theorem applyZoom_scale_mem (w h f cx cy : ℚ) (st : MapApp)
    (hlo : 1 ≤ st.scale) (hhi : st.scale ≤ 4) :
    1 ≤ (applyZoom w h f cx cy st).scale ∧
    (applyZoom w h f cx cy st).scale ≤ 4 := by
  simp only [applyZoom]
  split
  · exact ⟨hlo, hhi⟩
  · rw [clampTranslations_scale, zoomTranslationUpdate_scale]
    exact ⟨le_max_left _ _, max_le (by norm_num) (min_le_left _ _)⟩

theorem applyZoom_translate_of_scale_one (w h f cx cy : ℚ) (st : MapApp)
    (hchange : (applyZoom w h f cx cy st).scale ≠ st.scale)
    (h1 : (applyZoom w h f cx cy st).scale = 1) :
    (applyZoom w h f cx cy st).translateX = 0 ∧
    (applyZoom w h f cx cy st).translateY = 0 := by
  revert hchange h1
  simp only [applyZoom]
  split
  · intro hchange _
    exact absurd rfl hchange
  · intro _ h1
    rw [clampTranslations_scale, zoomTranslationUpdate_scale] at h1
    rw [clampTranslations_of_scale_le_one]
    · exact ⟨rfl, rfl⟩
    · rw [zoomTranslationUpdate_scale, h1]
      norm_num

/-! ## Claim theorems -/

/-- Claim C7 (confirmed). Clamp is idempotent: for every viewport state (any
scale and translation) and every fixed container width and height, applying
`clampTranslations` twice in succession produces the same state as applying
it once. -/
theorem C7_clamp_idempotent (w h : ℚ) (st : MapApp) :
    clampTranslations w h (clampTranslations w h st) =
      clampTranslations w h st := by
  obtain ⟨sc, tx, ty, md, am, th, af, rm⟩ := st
  by_cases hs : sc > 1
  · simp only [clampTranslations, hs, if_true]
    simp only [MapApp.mk.injEq, and_true, true_and]
    exact ⟨clamp1_idem tx _, clamp1_idem ty _⟩
  · simp only [clampTranslations, hs, if_false]

/-- Claim C8 (confirmed). During a swipe, for every pointer horizontal
position — including positions left of the wrapper's left edge and right of
its right edge — the computed swipe percent lies in `[0, 100]`; a pointer at
or beyond the wrapper's right edge yields exactly `100`. -/
theorem C8_swipe_clamped (clientX mapRectLeft mapRectWidth : ℚ)
    (hw : 0 < mapRectWidth) :
    0 ≤ onSwipe clientX mapRectLeft mapRectWidth ∧
    onSwipe clientX mapRectLeft mapRectWidth ≤ 100 ∧
    (mapRectWidth ≤ clientX - mapRectLeft →
      onSwipe clientX mapRectLeft mapRectWidth = 100) := by
  simp only [onSwipe]
  set n := max 0 (min mapRectWidth (clientX - mapRectLeft)) with hn
  have h0 : 0 ≤ n := le_max_left _ _
  have h1 : n ≤ mapRectWidth := max_le hw.le (min_le_left _ _)
  refine ⟨?_, ?_, ?_⟩
  · positivity
  · have : n / mapRectWidth ≤ 1 := (div_le_one hw).mpr h1
    nlinarith
  · intro hbeyond
    have : n = mapRectWidth := by
      rw [hn, min_eq_left hbeyond, max_eq_right hw.le]
    rw [this, div_self hw.ne']
    norm_num

/-- Claim C9 (confirmed). Jump-to-marker applies no translation clamping: for
the marker record at `left = 0, top = 0` and a `1000 × 800` wrapper, the
produced translation is `translateX = 500 = 1000/2 > 0`, which lies outside
the range `[-(1000*2 - 1000), 0]` that `clampTranslations` enforces at scale
`2.0` — indeed clamping the produced state would change `translateX` to
`0`. -/
theorem C9_jump_unclamped :
    (jumpToMarker 1000 800 (MarkerRecord.mk [] [] 0 0 [] [] [])
        initialState).translateX = 500 ∧
    (0 : ℚ) < 500 ∧
    ¬ (-(1000 * 2 - 1000) ≤ (500 : ℚ) ∧ (500 : ℚ) ≤ 0) ∧
    (clampTranslations 1000 800
        (jumpToMarker 1000 800 (MarkerRecord.mk [] [] 0 0 [] [] [])
          initialState)).translateX = 0 := by
  refine ⟨?_, by norm_num, by norm_num, ?_⟩
  · simp [jumpToMarker, renderMarkers, initialState]
    norm_num
  · simp [jumpToMarker, renderMarkers, clampTranslations, initialState]
    norm_num

/-- Claim C4 (confirmed). For a marker record with `top = 50` and `left = 50`
and a viewport wrapper of width `1000` and height `800`, jump-to-marker
produces scale exactly `2.0` and translation
`translate = viewCenter - markerPixelPos * 2.0 = (500 - 500*2, 400 - 400*2)`,
under which the marker's pixel position `(500, 400)` projects exactly to the
wrapper center `(500, 400)` (exact in rational arithmetic, hence within any
floating-point tolerance). -/
theorem C4_jump_scenario (st : MapApp) (nom cat pos lore img : List Char) :
    (jumpToMarker 1000 800 (MarkerRecord.mk nom cat 50 50 pos lore img)
        st).scale = 2 ∧
    (jumpToMarker 1000 800 (MarkerRecord.mk nom cat 50 50 pos lore img)
        st).translateX = 1000 / 2 - (50 / 100 * 1000) * 2 ∧
    (jumpToMarker 1000 800 (MarkerRecord.mk nom cat 50 50 pos lore img)
        st).translateY = 800 / 2 - (50 / 100 * 800) * 2 ∧
    screenPosX (jumpToMarker 1000 800 (MarkerRecord.mk nom cat 50 50 pos lore img) st)
      (50 / 100 * 1000) = 500 ∧
    screenPosY (jumpToMarker 1000 800 (MarkerRecord.mk nom cat 50 50 pos lore img) st)
      (50 / 100 * 800) = 400 := by
  refine ⟨rfl, ?_, ?_, ?_, ?_⟩ <;>
    norm_num [jumpToMarker, renderMarkers, screenPosX, screenPosY]

/-- Claim C1 (refuted as stated). Counterexample to exact zoom-about-pivot:
from the initial state (`scale = 1`, zero translation), a wheel zoom-in
(factor `1.1`) with the cursor at container-local pivot `110` moves the
content point that was under the pivot (content coordinate `110`, rendered at
wrapper position `110`) to wrapper position `111` — a drift of exactly one
pixel in exact rational arithmetic, far beyond floating-point tolerance. -/
theorem C1_counterexample :
    screenPosX (handleZoom 1000 800 true 110 0 initialState) 110 = 111 ∧
    screenPosX initialState 110 = 110 := by
  constructor
  · norm_num [handleZoom, applyZoom, zoomTranslationUpdate, clampTranslations,
      initialState, screenPosX]
  · norm_num [screenPosX, initialState]

/-- Claim C1 (amended). Under the code's translation update
`translate' = translate - pivot * (newScale - oldScale) / newScale`
(lines 150–153), the content point that was under container-local pivot `p`
(content coordinate `p / oldScale`) is rendered after the update at its old
screen position **plus a drift of exactly
`p * (newScale - oldScale)² / (oldScale * newScale)`** in each coordinate: it
is stationary only when the pivot coordinate is `0` or the scale is
unchanged.  (The exact zoom-about-pivot update would divide by `oldScale`
instead of `newScale`.) -/
theorem C1_amended (st : MapApp) (px py newScale : ℚ)
    (hs : st.scale ≠ 0) (hns : newScale ≠ 0) :
    screenPosX (zoomTranslationUpdate newScale px py st) (px / st.scale)
      = screenPosX st (px / st.scale)
        + px * (newScale - st.scale) ^ 2 / (st.scale * newScale) ∧
    screenPosY (zoomTranslationUpdate newScale px py st) (py / st.scale)
      = screenPosY st (py / st.scale)
        + py * (newScale - st.scale) ^ 2 / (st.scale * newScale) := by
  constructor <;>
    · simp only [screenPosX, screenPosY, zoomTranslationUpdate]
      field_simp
      ring

/-- Witness for `C1_amended`: at the counterexample's transition
(`oldScale = 1`, `newScale = 11/10`, pivot `(110, 0)`) the drift formula
yields exactly `110 * (1/10)² / (11/10) = 1` pixel. -/
theorem C1_amended_witness :
    initialState.scale ≠ 0 ∧ (11 / 10 : ℚ) ≠ 0 ∧
    (screenPosX (zoomTranslationUpdate (11 / 10) 110 0 initialState)
        (110 / initialState.scale)
      = screenPosX initialState (110 / initialState.scale)
        + 110 * (11 / 10 - initialState.scale) ^ 2
          / (initialState.scale * (11 / 10)) ∧
     screenPosY (zoomTranslationUpdate (11 / 10) 110 0 initialState)
        (0 / initialState.scale)
      = screenPosY initialState (0 / initialState.scale)
        + 0 * (11 / 10 - initialState.scale) ^ 2
          / (initialState.scale * (11 / 10))) :=
  ⟨by norm_num [initialState], by norm_num,
   C1_amended initialState 110 0 (11 / 10)
     (by norm_num [initialState]) (by norm_num)⟩

/-- Claim C2 (refuted as stated). Counterexample: a pan of `(5, 0)` from the
initial state performs no clamping (so scale stays `1.0` with translation
`(5, 0) ≠ (0, 0)`), and a subsequent wheel zoom-out at the `1.0` scale floor
early-returns before its `clampTranslations` call, leaving the state
unchanged: after the sequence, `scale = 1.0` but `translateX = 5 ≠ 0`. -/
theorem C2_counterexample :
    (runOps 1000 800 [.panMove 5 0, .wheelZoom false 0 0]
        initialState).scale = 1 ∧
    (runOps 1000 800 [.panMove 5 0, .wheelZoom false 0 0]
        initialState).translateX = 5 ∧
    (5 : ℚ) ≠ 0 := by
  refine ⟨?_, ?_, by norm_num⟩ <;>
    norm_num [runOps, stepOp, handlePanMove, handleZoom, applyZoom,
      initialState]

/-- Claim C2 (amended). The translation clamp runs after every zoom that
changes the scale, but not after pans and not after zooms that early-return
at the scale limits.  Consequently: after a reset, or after a wheel or
button zoom whose resulting scale both equals `1.0` and differs from the
previous scale, the translation is exactly `(0, 0)`; a pan (or a no-op zoom)
at scale `1.0` can leave a nonzero translation. -/
theorem C2_amended (w h : ℚ) (st : MapApp) (op : MapOp)
    (hop : op = MapOp.reset ∨
      (isZoomOp op = true ∧ (stepOp w h op st).scale ≠ st.scale))
    (h1 : (stepOp w h op st).scale = 1) :
    (stepOp w h op st).translateX = 0 ∧ (stepOp w h op st).translateY = 0 := by
  rcases hop with rfl | ⟨hzoom, hchange⟩
  · simp [stepOp, resetView, renderMarkers, hideTooltip, getActiveFilter]
  · cases op with
    | panMove dx dy => simp [isZoomOp] at hzoom
    | jump m => simp [isZoomOp] at hzoom
    | reset => simp [isZoomOp] at hzoom
    | wheelZoom d cx cy =>
        simp only [stepOp, handleZoom] at hchange h1 ⊢
        exact applyZoom_translate_of_scale_one _ _ _ _ _ _ hchange h1
    | buttonZoom dir =>
        simp only [stepOp, zoom] at hchange h1 ⊢
        exact applyZoom_translate_of_scale_one _ _ _ _ _ _ hchange h1

/-- Witness for `C2_amended`: from scale `11/10` with translation `(5, 7)`,
a wheel zoom-out lands exactly on the scale floor `1.0` (a genuine scale
change, so the clamp runs) and the translation is forced to `(0, 0)`. -/
theorem C2_amended_witness :
    (MapOp.wheelZoom false 3 4 = MapOp.reset ∨
      (isZoomOp (MapOp.wheelZoom false 3 4) = true ∧
        (stepOp 1000 800 (MapOp.wheelZoom false 3 4)
            { initialState with scale := 11/10, translateX := 5,
                                translateY := 7 }).scale ≠
          ({ initialState with scale := 11/10, translateX := 5,
                               translateY := 7 } : MapApp).scale)) ∧
    (stepOp 1000 800 (MapOp.wheelZoom false 3 4)
        { initialState with scale := 11/10, translateX := 5,
                            translateY := 7 }).scale = 1 ∧
    ((stepOp 1000 800 (MapOp.wheelZoom false 3 4)
        { initialState with scale := 11/10, translateX := 5,
                            translateY := 7 }).translateX = 0 ∧
     (stepOp 1000 800 (MapOp.wheelZoom false 3 4)
        { initialState with scale := 11/10, translateX := 5,
                            translateY := 7 }).translateY = 0) := by
  have hsc : (stepOp 1000 800 (MapOp.wheelZoom false 3 4)
      { initialState with scale := 11/10, translateX := 5,
                          translateY := 7 }).scale = 1 := by
    norm_num [stepOp, handleZoom, applyZoom, initialState,
      clampTranslations_scale, zoomTranslationUpdate_scale]
  have hop : (MapOp.wheelZoom false 3 4 : MapOp) = MapOp.reset ∨
      (isZoomOp (MapOp.wheelZoom false 3 4) = true ∧
        (stepOp 1000 800 (MapOp.wheelZoom false 3 4)
            { initialState with scale := 11/10, translateX := 5,
                                translateY := 7 }).scale ≠
          ({ initialState with scale := 11/10, translateX := 5,
                               translateY := 7 } : MapApp).scale) := by
    refine Or.inr ⟨rfl, ?_⟩
    rw [hsc]
    norm_num
  exact ⟨hop, hsc, C2_amended 1000 800 _ _ hop hsc⟩

/-- Claim C3 (confirmed). For every starting state with scale in `[1.0, 4.0]`
and every wheel-zoom, button-zoom, jump-to-marker or reset operation, the
scale after the operation satisfies `1.0 ≤ scale ≤ 4.0`. -/
theorem C3_scale_bounds (w h : ℚ) (st : MapApp) (op : MapOp)
    (hop : isScaleOp op = true)
    (hlo : 1 ≤ st.scale) (hhi : st.scale ≤ 4) :
    1 ≤ (stepOp w h op st).scale ∧ (stepOp w h op st).scale ≤ 4 := by
  cases op with
  | panMove dx dy => simp [isScaleOp] at hop
  | reset =>
      simp [stepOp, resetView, renderMarkers, hideTooltip, getActiveFilter]
  | jump m =>
      constructor <;> norm_num [stepOp, jumpToMarker, renderMarkers]
  | wheelZoom d cx cy =>
      simp only [stepOp, handleZoom]
      exact applyZoom_scale_mem _ _ _ _ _ _ hlo hhi
  | buttonZoom dir =>
      simp only [stepOp, zoom]
      exact applyZoom_scale_mem _ _ _ _ _ _ hlo hhi

/-- Witness for `C3_scale_bounds`: a wheel zoom-in from the initial state
(scale `1.0`) yields scale `11/10 ∈ [1, 4]`. -/
theorem C3_scale_bounds_witness :
    isScaleOp (MapOp.wheelZoom true 10 20) = true ∧
    1 ≤ initialState.scale ∧ initialState.scale ≤ 4 ∧
    (1 ≤ (stepOp 1000 800 (MapOp.wheelZoom true 10 20) initialState).scale ∧
     (stepOp 1000 800 (MapOp.wheelZoom true 10 20) initialState).scale ≤ 4) :=
  ⟨rfl, by norm_num [initialState], by norm_num [initialState],
   C3_scale_bounds 1000 800 initialState (MapOp.wheelZoom true 10 20) rfl
     (by norm_num [initialState]) (by norm_num [initialState])⟩

/-- Witness for `C8_swipe_clamped`: a pointer at `clientX = 2000`, fully
beyond the right edge of a wrapper spanning `[0, 1000]`, yields exactly
`100`. -/
theorem C8_swipe_clamped_witness :
    (0 : ℚ) < 1000 ∧
    (0 ≤ onSwipe 2000 0 1000 ∧ onSwipe 2000 0 1000 ≤ 100 ∧
      ((1000 : ℚ) ≤ 2000 - 0 → onSwipe 2000 0 1000 = 100)) :=
  ⟨by norm_num, C8_swipe_clamped 2000 0 1000 (by norm_num)⟩

/-! ## Preservation lemmas for reset-view (claim C6) -/

theorem clampTranslations_activeFilter (w h : ℚ) (st : MapApp) :
    (clampTranslations w h st).activeFilter = st.activeFilter := by
  unfold clampTranslations
  split <;> rfl

theorem clampTranslations_markersData (w h : ℚ) (st : MapApp) :
    (clampTranslations w h st).markersData = st.markersData := by
  unfold clampTranslations
  split <;> rfl

theorem applyZoom_activeFilter (w h f cx cy : ℚ) (st : MapApp) :
    (applyZoom w h f cx cy st).activeFilter = st.activeFilter := by
  simp only [applyZoom]
  split
  · rfl
  · rw [clampTranslations_activeFilter]
    rfl

theorem applyZoom_markersData (w h f cx cy : ℚ) (st : MapApp) :
    (applyZoom w h f cx cy st).markersData = st.markersData := by
  simp only [applyZoom]
  split
  · rfl
  · rw [clampTranslations_markersData]
    rfl

/-- No user operation changes the active filter button or the loaded data:
only `handleFilterClick` moves the `active-filter` class, and only
`loadMarkersData` writes `markersData`. -/
theorem stepOp_preserves (w h : ℚ) (op : MapOp) (st : MapApp) :
    (stepOp w h op st).activeFilter = st.activeFilter ∧
    (stepOp w h op st).markersData = st.markersData := by
  cases op with
  | panMove dx dy => exact ⟨rfl, rfl⟩
  | wheelZoom d cx cy =>
      simp only [stepOp, handleZoom]
      exact ⟨applyZoom_activeFilter .., applyZoom_markersData ..⟩
  | buttonZoom dir =>
      simp only [stepOp, zoom]
      exact ⟨applyZoom_activeFilter .., applyZoom_markersData ..⟩
  | jump m => exact ⟨rfl, rfl⟩
  | reset => exact ⟨rfl, rfl⟩

theorem runOps_preserves (w h : ℚ) (ops : List MapOp) (st : MapApp) :
    (runOps w h ops st).activeFilter = st.activeFilter ∧
    (runOps w h ops st).markersData = st.markersData := by
  induction ops generalizing st with
  | nil => exact ⟨rfl, rfl⟩
  | cons op ops ih =>
      have hstep := stepOp_preserves w h op st
      have hrest := ih (stepOp w h op st)
      simp only [runOps, List.foldl_cons] at *
      exact ⟨hrest.1.trans hstep.1, hrest.2.trans hstep.2⟩

/-- Claim C6 (confirmed). For every prior state — reached by any sequence of
pan, zoom and jump operations from any starting state, under any selected
category filter — reset-view sets scale to `1.0` and translation to `(0,0)`,
clears the active marker, hides the detail display, and re-renders markers
under the category filter that was selected before the reset (not `'all'`):
the filter selection persists across the reset. -/
theorem C6_reset_view (w h : ℚ) (ops : List MapOp) (st : MapApp) :
    (resetView (runOps w h ops st)).scale = 1 ∧
    (resetView (runOps w h ops st)).translateX = 0 ∧
    (resetView (runOps w h ops st)).translateY = 0 ∧
    (resetView (runOps w h ops st)).activeMarker = none ∧
    (resetView (runOps w h ops st)).tooltipHidden = true ∧
    (resetView (runOps w h ops st)).activeFilter = st.activeFilter ∧
    (resetView (runOps w h ops st)).renderedMarkers
      = st.markersData.filter (isVisible st.activeFilter) := by
  obtain ⟨hf, hd⟩ := runOps_preserves w h ops st
  refine ⟨rfl, rfl, rfl, rfl, rfl, ?_, ?_⟩
  · simp only [resetView, renderMarkers, hideTooltip, getActiveFilter]
    exact hf
  · simp only [resetView, renderMarkers, hideTooltip, getActiveFilter]
    rw [hf, hd]

/-! ## Search (claims C5 and C10) -/

/-- A capital marker named `Ironforge`. -/
def ironforge : MarkerRecord :=
  { nom := ['I', 'r', 'o', 'n', 'f', 'o', 'r', 'g', 'e'],
    categorie := ['C', 'a', 'p', 'i', 't', 'a', 'l', 'e', 's'],
    top := 30, left := 40,
    position_approx := ['D', 'u', 'n', ' ', 'M', 'o', 'r', 'o', 'g', 'h'],
    lore_desc := [], image_url := [] }

/-- A site whose position label mentions the Ironband excavation. -/
def ironband : MarkerRecord :=
  { nom := ['E', 'x', 'c', 'a', 'v', 'a', 't', 'i', 'o', 'n'],
    categorie := ['S', 'i', 't', 'e', 's'],
    top := 60, left := 55,
    position_approx := ['n', 'e', 'a', 'r', ' ', 't', 'h', 'e', ' ',
      'I', 'r', 'o', 'n', 'b', 'a', 'n', 'd'],
    lore_desc := [], image_url := [] }

/-- A village matching neither `iron` query. -/
def goldshire : MarkerRecord :=
  { nom := ['G', 'o', 'l', 'd', 's', 'h', 'i', 'r', 'e'],
    categorie := ['V', 'i', 'l', 'l', 'e', 's'],
    top := 70, left := 45,
    position_approx := ['E', 'l', 'w', 'y', 'n', 'n'],
    lore_desc := [], image_url := [] }

/-- A small loaded record list for the concrete search witnesses. -/
def sampleMarkers : List MarkerRecord :=
  [ironforge, ironband, goldshire]

/-- Claim C5 (confirmed). For every loaded record list and every query string
(the query as searched, i.e. already lowercased and whitespace-trimmed),
search returns the empty sequence whenever the query has fewer than 2
characters, and otherwise returns exactly the records whose `nom` or
`position_approx` contains the query as a case-insensitive substring, in the
order the records were loaded (the result is a sublist of the data). -/
theorem C5_search (markersData : List MarkerRecord) (query : List Char)
    (hlow : toLower query = query) (htrim : trim query = query) :
    (query.length < 2 → handleSearchInput markersData query = []) ∧
    (2 ≤ query.length →
      handleSearchInput markersData query
        = markersData.filter (fun m => ciMatch query m)) ∧
    (handleSearchInput markersData query).Sublist markersData := by
  have hnorm : trim (toLower query) = query := by rw [hlow, htrim]
  refine ⟨?_, ?_, ?_⟩
  · intro hshort
    simp only [handleSearchInput, hnorm]
    rw [if_pos hshort]
  · intro hlong
    simp only [handleSearchInput, hnorm]
    rw [if_neg (by omega)]
    apply List.filter_congr
    intro m _
    simp only [ciMatch, hlow]
  · simp only [handleSearchInput, hnorm]
    split
    · exact List.nil_sublist _
    · exact List.filter_sublist _

/-- Witness for `C5_search`: the query `iron` (lowercase, trimmed) over a
three-record list containing `Ironforge` and a record positioned
`near the Ironband` excavation. -/
theorem C5_search_witness :
    toLower ['i', 'r', 'o', 'n'] = ['i', 'r', 'o', 'n'] ∧
    trim ['i', 'r', 'o', 'n'] = ['i', 'r', 'o', 'n'] ∧
    ((['i', 'r', 'o', 'n'].length < 2 →
        handleSearchInput sampleMarkers ['i', 'r', 'o', 'n'] = []) ∧
     (2 ≤ ['i', 'r', 'o', 'n'].length →
        handleSearchInput sampleMarkers ['i', 'r', 'o', 'n']
          = sampleMarkers.filter (fun m => ciMatch ['i', 'r', 'o', 'n'] m)) ∧
     (handleSearchInput sampleMarkers ['i', 'r', 'o', 'n']).Sublist
        sampleMarkers) :=
  ⟨by decide, by decide,
   C5_search sampleMarkers ['i', 'r', 'o', 'n'] (by decide) (by decide)⟩

/-- The spec's concrete search example, evaluated: `iron` matches the record
named `Ironforge` and the record positioned near the Ironband excavation
(case-insensitively), in load order, and misses `Goldshire`. -/
theorem search_iron_example :
    handleSearchInput sampleMarkers ['i', 'r', 'o', 'n']
      = [ironforge, ironband] := by
  decide

/-- Claim C10 (confirmed). The search handler lowercases and trims the raw
query before the minimum-length check and before matching: whenever the
trimmed lowercased form of the raw query has fewer than 2 characters the
result is empty (regardless of the raw length), and otherwise the records
are matched against the trimmed, lowercased form. -/
theorem C10_trim_before_check (markersData : List MarkerRecord)
    (raw : List Char) :
    ((trim (toLower raw)).length < 2 →
      handleSearchInput markersData raw = []) ∧
    (2 ≤ (trim (toLower raw)).length →
      handleSearchInput markersData raw
        = markersData.filter fun m =>
            includes (toLower m.nom) (trim (toLower raw)) ||
            includes (toLower m.position_approx) (trim (toLower raw))) := by
  constructor
  · intro hshort
    simp only [handleSearchInput]
    rw [if_pos hshort]
  · intro hlong
    simp only [handleSearchInput]
    rw [if_neg (by omega)]

/-- Witness for `C10_trim_before_check`: the raw query `" a "` has raw
length `3` but trimmed length `1`, so the result is empty. -/
theorem C10_trim_before_check_witness :
    (trim (toLower [' ', 'a', ' '])).length < 2 ∧
    ([' ', 'a', ' '] : List Char).length = 3 ∧
    handleSearchInput sampleMarkers [' ', 'a', ' '] = [] :=
  ⟨by decide, by decide,
   (C10_trim_before_check sampleMarkers [' ', 'a', ' ']).1 (by decide)⟩

end AzerothMap
